import Mathlib

/-!
Shallow embedding of the reply-decision engine of the whatsapp-web-api
repository.

The embedding covers:
* the shared cooldown tracker (`isOnCooldown` / `setCooldown`), identical in
  both handler variants;
* the AI-layered auto-reply pipeline of the `src/whatsapp/handlers.js`
  variant with database + AI stages (namespace `AIPipeline`);
* the menu-driven engine (namespace `MenuEngine`) together with its
  `testReply` entry point;
* the phone normalization performed by the gateway client
  (`SupraApi.lookupBookingPhone`).

JavaScript objects / Maps are modelled as insertion-ordered association
lists; both structures update an existing key in place and append new keys,
which `assocSet` reproduces.  Remote collaborators (the booking gateway, the
AI generator, the transport) are modelled as oracles fixing the outcome of
each call, following the collaborator contracts of the specification: a
`none` outcome stands for a thrown error or a falsy payload, which the code
treats alike at every call site.  Timestamps are rationals (milliseconds),
cooldown durations are rationals (seconds), mirroring the numeric code.
-/

namespace Bot

/-- JavaScript `String.prototype.includes`: `sub` occurs somewhere in `s`. -/
def jsIncludes (s sub : String) : Bool :=
  (List.range (s.toList.length + 1)).any
    (fun i => List.isPrefixOf sub.toList (s.toList.drop i))

/-- JavaScript `String.prototype.startsWith` (character-list based so that
concrete instances evaluate inside the kernel). -/
def jsStartsWith (s pre : String) : Bool :=
  List.isPrefixOf pre.toList s.toList

/-- JavaScript `String.prototype.toLowerCase` (ASCII, as the keyword
tables use). -/
def jsToLower (s : String) : String :=
  (s.toList.map Char.toLower).asString

/-- JavaScript `String.prototype.trim`: strip whitespace at both ends. -/
def jsTrim (s : String) : String :=
  (((s.toList.dropWhile Char.isWhitespace).reverse.dropWhile
      Char.isWhitespace).reverse).asString

/-- First-occurrence replacement on character lists. -/
def replaceFirstList (pat repl : List Char) : List Char → List Char
  | [] => []
  | c :: rest =>
    if List.isPrefixOf pat (c :: rest) then repl ++ (c :: rest).drop pat.length
    else c :: replaceFirstList pat repl rest

/-- Insertion-ordered map lookup (JS `Map.get` / object property read). -/
def assocGet {α : Type} (m : List (String × α)) (k : String) : Option α :=
  (m.find? (fun p => p.1 == k)).map (fun p => p.2)

/-- Insertion-ordered map update (JS `Map.set` / object property write):
an existing key keeps its position, a new key is appended. -/
def assocSet {α : Type} (m : List (String × α)) (k : String) (v : α) :
    List (String × α) :=
  if m.any (fun p => p.1 == k) then
    m.map (fun p => if p.1 == k then (k, v) else p)
  else
    m ++ [(k, v)]

/-- JS `delete obj[k]`. -/
def assocRemove {α : Type} (m : List (String × α)) (k : String) :
    List (String × α) :=
  m.filter (fun p => p.1 != k)

/-- JS first-occurrence `String.prototype.replace` with a string pattern. -/
def jsReplaceFirst (s pat repl : String) : String :=
  (replaceFirstList pat.toList repl.toList s.toList).asString

/-- `fromWhatsAppId` from `src/utils/phone.js`: strips the `@c.us` /
`@s.whatsapp.net` suffix of a chat id.  The JS guard returning `null` on a
falsy chat id is unobservable here (an empty string is left unchanged by
both replacements). -/
def fromWhatsAppId (chatId : String) : String :=
  jsReplaceFirst (jsReplaceFirst chatId "@c.us" "") "@s.whatsapp.net" ""

/-- One inbound WhatsApp message event, as consumed by both handlers:
`fromMe`, `from` (chat id) and `body`. -/
structure Message where
  fromMe : Bool
  fromId : String
  body : String

/-- Cooldown map: sender id to timestamp (ms) of the last auto-reply. -/
abbrev CooldownMap : Type := List (String × ℚ)

/-- `isOnCooldown` (identical in both handler files): true iff the sender
has a truthy entry whose age in seconds is below the configured cooldown.
The JS falsiness test `if (!lastReply) return false` also fires on the
timestamp `0`, which the embedding keeps. -/
def isOnCooldown (m : CooldownMap) (sender : String) (now cooldown : ℚ) :
    Bool :=
  match assocGet m sender with
  | none => false
  | some lastReply =>
    if lastReply = 0 then false
    else decide ((now - lastReply) / 1000 < cooldown)

/-- `setCooldown` (identical in both handler files): record `now` for the
sender, then, when the map holds more than 1000 entries, evict every entry
older than the cooldown window. -/
def setCooldown (m : CooldownMap) (sender : String) (now cooldown : ℚ) :
    CooldownMap :=
  let m1 := assocSet m sender now
  if 1000 < m1.length then
    m1.filter (fun p => !decide (p.2 < now - cooldown * 1000))
  else m1

/-- JS truthiness of a `string | null` value (`null` and `""` are falsy). -/
def jsTruthy : Option String → Bool
  | none => false
  | some s => !(s == "")

end Bot

namespace Bot.AIPipeline

/-!
The AI-layered pipeline variant (`handleIncomingMessage`,
`handleDatabaseQuery`, `findKeywordReply`, configuration mutators).
-/

/-- Keyword rule table: normalized trigger to reply text, `none` being the
explicit `null` no-reply sentinel.  Insertion-ordered like a JS object. -/
abbrev KwTable : Type := List (String × Option String)

/-- The runtime `autoReplyConfig` object of the AI-layered variant. -/
structure AutoReplyConfig where
  enabled : Bool
  useAI : Bool
  useDatabase : Bool
  defaultMessage : String
  keywords : KwTable
  cooldown : ℚ

/-- Outcome oracle for the external booking gateway.  Each field is the
formatted reply text produced when the corresponding lookup returns a
truthy payload (`supraApi.lookup… ; if (data) return format…(data)`), and
`none` when the call throws or returns a falsy payload — the code treats
those two cases identically at every call site.  The route/date arguments
of `checkAvailability` only parametrize the remote call, whose outcome the
oracle already fixes, so they are elided. -/
structure Gateway where
  booking : Option String
  availability : Option String
  schedule : Option String

/-- Outcome oracle for the AI generator: `enabled` is `aiService.isEnabled()`
and `reply` the result of `generateReply` (`none` for a `null` result or a
thrown error, which leave the pipeline state identically). -/
structure AIService where
  enabled : Bool
  reply : Option String

/-- `booking/ticket/reservation` trigger block of `handleDatabaseQuery`. -/
def bookingTrigger (t : String) : Bool :=
  jsIncludes t "booking" || jsIncludes t "ticket" ||
  jsIncludes t "reservation" || jsIncludes t "booked" ||
  jsIncludes t "my seat"

/-- `seat/availability` trigger block of `handleDatabaseQuery`. -/
def seatTrigger (t : String) : Bool :=
  jsIncludes t "seat" || jsIncludes t "available" ||
  jsIncludes t "availability" || jsIncludes t "how many" ||
  jsIncludes t "left"

/-- `schedule/timing` trigger block of `handleDatabaseQuery`. -/
def scheduleTrigger (t : String) : Bool :=
  jsIncludes t "schedule" || jsIncludes t "timing" ||
  jsIncludes t "time" || jsIncludes t "when" ||
  jsIncludes t "departure" || jsIncludes t "arrive"

/-- `handleDatabaseQuery`: lowercase the text, run the three intent blocks
in order, return the first formatted result of a triggered lookup (`none`
models the JS `null` return).  The second component counts the gateway
calls made. -/
def handleDatabaseQuery (gw : Gateway) (messageText : String) :
    Option String × ℕ :=
  let t := jsToLower messageText
  let r1 := if bookingTrigger t then some gw.booking else none
  match r1 with
  | some (some s) => (some s, 1)
  | _ =>
    let c1 := if bookingTrigger t then 1 else 0
    let r2 := if seatTrigger t then some gw.availability else none
    match r2 with
    | some (some s) => (some s, c1 + 1)
    | _ =>
      let c2 := if seatTrigger t then 1 else 0
      let r3 := if scheduleTrigger t then some gw.schedule else none
      match r3 with
      | some (some s) => (some s, c1 + c2 + 1)
      | _ =>
        let c3 := if scheduleTrigger t then 1 else 0
        (none, c1 + c2 + c3)

/-- `findKeywordReply`: exact object-key match first, then the first rule
(in insertion order) whose key followed by a space or a comma starts the
text.  Result is JS three-valued: `none` = `undefined` (no match),
`some none` = `null` (no-reply sentinel), `some (some s)` = reply text. -/
def findKeywordReply (kw : KwTable) (messageText : String) :
    Option (Option String) :=
  match assocGet kw messageText with
  | some v => some v
  | none =>
    match kw.find? (fun p =>
        jsStartsWith messageText (p.1 ++ " ") ||
        jsStartsWith messageText (p.1 ++ ",")) with
    | some p => some p.2
    | none => none

/-- The reply-resolution part of `handleIncomingMessage`, up to (not
including) the send: the final `replyMessage` (`none` both for an early
return and for the explicit `null`; either way nothing is sent), together
with the number of gateway calls and of AI-generation calls made. -/
def resolveReply (cfg : AutoReplyConfig) (cdMap : CooldownMap)
    (gw : Gateway) (ai : AIService) (now : ℚ) (msg : Message) :
    Option String × ℕ × ℕ :=
  if msg.fromMe then (none, 0, 0)
  else if jsIncludes msg.fromId "@g.us" then (none, 0, 0)
  else
    let sender := fromWhatsAppId msg.fromId
    let messageText := jsTrim msg.body
    let messageTextLower := jsToLower messageText
    if !cfg.enabled then (none, 0, 0)
    else if isOnCooldown cdMap sender now cfg.cooldown then (none, 0, 0)
    else if assocGet cfg.keywords messageTextLower == some none then
      (none, 0, 0)
    else
      let step1 := if cfg.useDatabase then handleDatabaseQuery gw messageText
                   else (none, 0)
      let rm1 := step1.1
      let g1 := step1.2
      -- the AI stage always performs three context fetches (booking,
      -- availability, schedule) before the single generation call;
      -- individual fetch failures are swallowed
      let step2 := !jsTruthy rm1 && cfg.useAI && ai.enabled
      let rm2 := if step2 then ai.reply else rm1
      let g2 := if step2 then 3 else 0
      let a2 := if step2 then 1 else 0
      let rm3 :=
        if !jsTruthy rm2 then
          match findKeywordReply cfg.keywords messageTextLower with
          | some v => v
          | none => some cfg.defaultMessage
        else rm2
      (rm3, g1 + g2, a2)

/-- Observable outcome of handling one message: the reply text handed to
the transport (`none` when the pipeline stays silent), the cooldown map
afterwards, the collaborator call counts, the number of send attempts and
whether a send failure was logged. -/
structure HandleResult where
  decision : Option String
  cooldownMap : CooldownMap
  gatewayCalls : ℕ
  aiCalls : ℕ
  sendAttempts : ℕ
  sendFailureLogged : Bool

/-- `handleIncomingMessage`: resolve the reply, then — only for a truthy
reply — attempt the single send (`sendOk` is the transport oracle); the
cooldown is marked after a successful send, a failed send is logged and
leaves the cooldown map unchanged. -/
def handleIncomingMessage (cfg : AutoReplyConfig) (cdMap : CooldownMap)
    (gw : Gateway) (ai : AIService) (sendOk : Bool) (now : ℚ)
    (msg : Message) : HandleResult :=
  let res := resolveReply cfg cdMap gw ai now msg
  match res.1 with
  | some s =>
    if s = "" then ⟨none, cdMap, res.2.1, res.2.2, 0, false⟩
    else if sendOk then
      ⟨some s, setCooldown cdMap (fromWhatsAppId msg.fromId) now
         cfg.cooldown, res.2.1, res.2.2, 1, false⟩
    else ⟨some s, cdMap, res.2.1, res.2.2, 1, true⟩
  | none => ⟨none, cdMap, res.2.1, res.2.2, 0, false⟩

/-- A JSON-ish JavaScript value as deliverable by the HTTP control layer,
discriminated the way `typeof` sees it. -/
inductive JsVal where
  | jbool (b : Bool)
  | jstr (s : String)
  | jnum (q : ℚ)
  | jnull
  | jobj (m : List (String × Option String))

/-- JS `typeof` on a `JsVal` (`typeof null` is `"object"`). -/
def typeof : JsVal → String
  | .jbool _ => "boolean"
  | .jstr _ => "string"
  | .jnum _ => "number"
  | .jnull => "object"
  | .jobj _ => "object"

/-- A partial configuration update object; `none` models an absent
property (`typeof undefined` never matches a recognized type). -/
structure PartialConfig where
  enabled : Option JsVal
  defaultMessage : Option JsVal
  cooldown : Option JsVal
  keywords : Option JsVal

/-- JS object spread `{...a, ...b}`: keys of `b` override `a` in place,
fresh keys are appended in the order of `b`. -/
def spreadMerge (a b : KwTable) : KwTable :=
  b.foldl (fun acc p => assocSet acc p.1 p.2) a

/-- `updateAutoReplyConfig` of the AI-layered variant: each recognized
field is applied only when `typeof` matches; everything else is silently
ignored.  `typeof null` is `"object"`, so a `null` keywords field takes the
merge branch but spreads nothing. -/
def updateAutoReplyConfig (cfg : AutoReplyConfig) (p : PartialConfig) :
    AutoReplyConfig :=
  let c1 := match p.enabled with
    | some (.jbool b) => { cfg with enabled := b }
    | _ => cfg
  let c2 := match p.defaultMessage with
    | some (.jstr s) => { c1 with defaultMessage := s }
    | _ => c1
  let c3 := match p.cooldown with
    | some (.jnum q) => { c2 with cooldown := q }
    | _ => c2
  match p.keywords with
  | some (.jobj m) => { c3 with keywords := spreadMerge c3.keywords m }
  | some .jnull => c3
  | _ => c3

/-- `setKeyword`: lower-case the keyword and upsert the rule. -/
def setKeyword (cfg : AutoReplyConfig) (keyword : String)
    (reply : Option String) : AutoReplyConfig :=
  { cfg with keywords := assocSet cfg.keywords (jsToLower keyword) reply }

/-- `removeKeyword`: lower-case the keyword and delete the rule. -/
def removeKeyword (cfg : AutoReplyConfig) (keyword : String) :
    AutoReplyConfig :=
  { cfg with keywords := assocRemove cfg.keywords (jsToLower keyword) }

end Bot.AIPipeline

namespace Bot.MenuEngine

/-!
The menu-driven engine of `src/whatsapp/handlers.js` and its `testReply`
entry point.
-/

/-- The runtime `autoReplyConfig` object of the menu-driven variant. -/
structure MenuConfig where
  enabled : Bool
  useDatabase : Bool
  defaultMessage : String
  cooldown : ℚ

/-- Outcome oracle for the booking gateway, as in `AIPipeline.Gateway`:
each field is the formatted text for a truthy payload, `none` a thrown
error or falsy payload.  The phone / route / date arguments only
parametrize the remote call the oracle already fixes. -/
structure MenuGateway where
  booking : Option String
  availability : Option String
  schedule : Option String

/-- The `MAIN_MENU` template literal. -/
def MAIN_MENU : String :=
  "🙏 *Welcome to Supra Travels!*\n\nPlease reply with a number:\n\n1️⃣ Check my booking status\n2️⃣ Book a new ticket\n3️⃣ Check seat availability\n4️⃣ Bus schedule & timings\n5️⃣ Contact support\n\n🌐 Website: supratravels.gt.tc"

/-- `MENU_RESPONSES['2']`. -/
def menuResponse2 : String :=
  "🎫 *Book Your Bus Ticket Now!*\n\n🌐 *Online Booking:*\nhttps://supratravels.gt.tc/booking.php\n\n📍 Route: Bangalore ⇄ Hosadurga\n💰 Round-trip: Just ₹999!\n\n📞 *Or Call to Book:*\n+91 96860 20017\n\nWe\x27re here to help! 🙏"

/-- `MENU_RESPONSES['5']`. -/
def menuResponse5 : String :=
  "📞 *Contact Supra Travels*\n\n☎️ Phone: +91 96860 20017\n📧 Email: info@supratravels.in\n\n📍 Address:\nSupra Tour and Travels Pvt Ltd\nHosadurga, Chitradurga District\nKarnataka - 577527\n\n🌐 supratravels.gt.tc\n\nWe\x27re available 7 AM - 10 PM daily! 🙏"

/-- The `MENU_RESPONSES` object (sentinel strings mark gateway actions). -/
def MENU_RESPONSES (opt : String) : Option String :=
  if opt = "1" then some "CHECK_BOOKING"
  else if opt = "2" then some menuResponse2
  else if opt = "3" then some "CHECK_AVAILABILITY"
  else if opt = "4" then some "CHECK_SCHEDULE"
  else if opt = "5" then some menuResponse5
  else none

/-- The fixed courtesy reply for thanks-like messages. -/
def thankYouReply : String :=
  "🙏 Thank you for choosing Supra Travels! Safe travels! 🚌"

/-- `lookupSenderBooking`: formatted booking text, or the canned apology
when the lookup throws or yields no data. -/
def lookupSenderBooking (gw : MenuGateway) (_senderPhone : String) :
    String :=
  match gw.booking with
  | some s => s
  | none =>
    "❌ Sorry, couldn\x27t check booking status right now.\n\n📞 Please call: +91 96860 20017"

/-- `checkAvailabilityForQuery`: the query only selects the route / date
passed to the gateway call whose outcome the oracle fixes. -/
def checkAvailabilityForQuery (gw : MenuGateway) (_query : String) :
    String :=
  match gw.availability with
  | some s => s
  | none =>
    "❌ Couldn\x27t check availability right now.\n\n📞 Please call: +91 96860 20017"

/-- `getScheduleResponse`. -/
def getScheduleResponse (gw : MenuGateway) : String :=
  match gw.schedule with
  | some s => s
  | none =>
    "❌ Couldn\x27t get schedule right now.\n\n📞 Please call: +91 96860 20017"

/-- `handleMenuOption`: resolve a menu digit through `MENU_RESPONSES`,
dispatching the three gateway-backed sentinels. -/
def handleMenuOption (gw : MenuGateway) (opt senderPhone : String) :
    Option String :=
  let response := MENU_RESPONSES opt
  if response == some "CHECK_BOOKING" then
    some (lookupSenderBooking gw senderPhone)
  else if response == some "CHECK_AVAILABILITY" then
    some (checkAvailabilityForQuery gw "today")
  else if response == some "CHECK_SCHEDULE" then
    some (getScheduleResponse gw)
  else response

/-- The `skipWords` acknowledgement list of the live handler. -/
def skipWords : List String :=
  ["ok", "okay", "yes", "no", "hmm", "k", "fine", "good", "nice", "great",
   "thanks", "thank you", "thankyou", "tq", "ty"]

/-- The shorter `skipWords` list used by `testReply`. -/
def testSkipWords : List String :=
  ["ok", "okay", "yes", "no", "hmm", "k", "fine", "good", "nice", "great"]

/-- `isGreeting`. -/
def isGreeting (text : String) : Bool :=
  let greetings := ["hi", "hello", "hey", "hii", "hiii", "namaste",
    "namaskar", "namaskara", "ನಮಸ್ಕಾರ"]
  greetings.contains text ||
    greetings.any (fun g => jsStartsWith text (g ++ " "))

/-- `isBookingQuery`. -/
def isBookingQuery (text : String) : Bool :=
  ["booking", "booked", "my booking", "my ticket", "reservation",
   "ticket status", "booking status", "check booking",
   "my seat"].any (fun k => jsIncludes text k)

/-- `isAvailabilityQuery`. -/
def isAvailabilityQuery (text : String) : Bool :=
  ["available", "availability", "seats available", "how many seats",
   "seats left", "is there seat", "any seat"].any
    (fun k => jsIncludes text k)

/-- `isScheduleQuery`. -/
def isScheduleQuery (text : String) : Bool :=
  ["schedule", "timing", "timings", "time", "departure", "arrive",
   "when does", "what time", "bus time"].any (fun k => jsIncludes text k)

/-- `isNewBookingQuery`. -/
def isNewBookingQuery (text : String) : Bool :=
  ["book", "new booking", "book ticket", "book seat", "want to book",
   "need ticket", "book bus"].any (fun k => jsIncludes text k)

/-- `isContactQuery`. -/
def isContactQuery (text : String) : Bool :=
  ["contact", "call", "phone", "number", "help", "support", "address",
   "office"].any (fun k => jsIncludes text k)

/-- The default reply for unmatched text. -/
def didNotUnderstandReply : String :=
  "🤔 I didn\x27t understand that. Let me help you!\n\n" ++ MAIN_MENU

/-- Branches 1-8 of the live handler (shared verbatim by `testReply`):
the `replyMessage` chosen for a trimmed, non-acknowledgement text. -/
def menuResolve (gw : MenuGateway) (messageText senderPhone : String) :
    Option String :=
  let messageTextLower := jsToLower messageText
  if messageText ∈ ["1", "2", "3", "4", "5"] then
    handleMenuOption gw messageText senderPhone
  else if isGreeting messageTextLower then some MAIN_MENU
  else if isBookingQuery messageTextLower then
    some (lookupSenderBooking gw senderPhone)
  else if isAvailabilityQuery messageTextLower then
    some (checkAvailabilityForQuery gw messageTextLower)
  else if isScheduleQuery messageTextLower then
    some (getScheduleResponse gw)
  else if isNewBookingQuery messageTextLower then some menuResponse2
  else if isContactQuery messageTextLower then some menuResponse5
  else some didNotUnderstandReply

/-- Observable outcome of the menu-driven handler: the final
`replyMessage` (`none` for an early silent return), the cooldown map
afterwards, send attempts, and whether the send-failure log line ran. -/
structure MenuResult where
  decision : Option String
  cooldownMap : CooldownMap
  sendAttempts : ℕ
  sendFailureLogged : Bool

/-- The menu-driven `handleIncomingMessage`.  A falsy (empty) reply is not
sent; a send failure in the main branch is logged and skips the cooldown;
a send failure in the acknowledgement branch propagates to the top-level
catch (so it is not counted as a send-failure log line here) and equally
skips the cooldown. -/
def handleIncomingMessage (cfg : MenuConfig) (cdMap : CooldownMap)
    (gw : MenuGateway) (sendOk : Bool) (now : ℚ) (msg : Message) :
    MenuResult :=
  if msg.fromMe then ⟨none, cdMap, 0, false⟩
  else if jsIncludes msg.fromId "@g.us" then ⟨none, cdMap, 0, false⟩
  else
    let sender := fromWhatsAppId msg.fromId
    let messageText := jsTrim msg.body
    let messageTextLower := jsToLower messageText
    if !cfg.enabled then ⟨none, cdMap, 0, false⟩
    else if isOnCooldown cdMap sender now cfg.cooldown then
      ⟨none, cdMap, 0, false⟩
    else if messageTextLower ∈ skipWords then
      if jsIncludes messageTextLower "thank" then
        if sendOk then
          ⟨some thankYouReply, setCooldown cdMap sender now cfg.cooldown,
           1, false⟩
        else ⟨some thankYouReply, cdMap, 1, false⟩
      else ⟨none, cdMap, 0, false⟩
    else
      match menuResolve gw messageText sender with
      | some s =>
        if s = "" then ⟨some "", cdMap, 0, false⟩
        else if sendOk then
          ⟨some s, setCooldown cdMap sender now cfg.cooldown, 1, false⟩
        else ⟨some s, cdMap, 1, true⟩
      | none => ⟨none, cdMap, 0, false⟩

/-- `testReply(message, phone)`: the offline mirror of the live decision
logic, returning the chosen reply (or `null`) and a reason tag. -/
def testReply (gw : MenuGateway) (messageText senderPhone : String) :
    Option String × String :=
  let messageTextLower := jsToLower (jsTrim messageText)
  if messageTextLower ∈ testSkipWords then
    (none, "Acknowledgement word - no reply")
  else if jsIncludes messageTextLower "thank" then
    (some thankYouReply, "Thank you response")
  else if jsTrim messageText ∈ ["1", "2", "3", "4", "5"] then
    (handleMenuOption gw (jsTrim messageText) senderPhone,
     "Menu option " ++ jsTrim messageText)
  else if isGreeting messageTextLower then
    (some MAIN_MENU, "Greeting detected")
  else if isBookingQuery messageTextLower then
    (some (lookupSenderBooking gw senderPhone), "Booking query detected")
  else if isAvailabilityQuery messageTextLower then
    (some (checkAvailabilityForQuery gw messageTextLower),
     "Availability query detected")
  else if isScheduleQuery messageTextLower then
    (some (getScheduleResponse gw), "Schedule query detected")
  else if isNewBookingQuery messageTextLower then
    (some menuResponse2, "New booking query detected")
  else if isContactQuery messageTextLower then
    (some menuResponse5, "Contact/help query detected")
  else (some didNotUnderstandReply, "Default response")

end Bot.MenuEngine

namespace Bot.SupraApi

/-- The digit-stripping step of `lookupBooking`
(`phone.replace(/[^0-9]/g, '')`). -/
def stripNonDigits (phone : String) : String :=
  (phone.toList.filter Char.isDigit).asString

/-- JS `s.slice(-n)`: the last `n` characters. -/
def sliceLast (s : String) (n : ℕ) : String :=
  (s.toList.drop (s.toList.length - n)).asString

/-- The phone string `lookupBooking` hands to the booking backend: strip
every non-digit, then keep only the last 10 digits when more remain. -/
def lookupBookingPhone (phone : String) : String :=
  let p := stripNonDigits phone
  if p.length > 10 then sliceLast p 10 else p

end Bot.SupraApi

namespace Bot

/-! Helper lemmas about the association-list map operations. -/

theorem find?_map_set_of_any {α : Type} (m : List (String × α)) (k : String)
    (v : α) (h : m.any (fun p => p.1 == k) = true) :
    (m.map (fun p => if p.1 == k then (k, v) else p)).find?
      (fun p => p.1 == k) = some (k, v) := by
  induction m with
  | nil => simp at h
  | cons a t ih =>
    by_cases hk : (a.1 == k) = true
    · rw [List.map_cons, if_pos hk, List.find?_cons_of_pos]
      exact beq_self_eq_true k
    · simp only [List.any_cons, Bool.or_eq_true] at h
      rcases h with h | h
      · exact absurd h hk
      · rw [List.map_cons, if_neg hk,
          List.find?_cons_of_neg _ (by simpa using hk)]
        exact ih h

theorem find?_append_of_not_any {α : Type} (m : List (String × α))
    (k : String) (v : α) (h : m.any (fun p => p.1 == k) = false) :
    (m ++ [(k, v)]).find? (fun p => p.1 == k) = some (k, v) := by
  induction m with
  | nil => simp [List.find?]
  | cons a t ih =>
    simp only [List.any_cons, Bool.or_eq_false_iff] at h
    rw [List.cons_append, List.find?_cons_of_neg _ (by simp [h.1])]
    exact ih h.2

/-- Reading back the key just written (JS `map.set(k, v); map.get(k)`). -/
theorem assocGet_assocSet_self {α : Type} (m : List (String × α))
    (k : String) (v : α) : assocGet (assocSet m k v) k = some v := by
  unfold assocGet assocSet
  by_cases h : m.any (fun p => p.1 == k) = true
  · rw [if_pos h, find?_map_set_of_any m k v h]
    rfl
  · rw [if_neg h, find?_append_of_not_any m k v (Bool.eq_false_iff.mpr h)]
    rfl

/-- After `assocSet m k v`, every entry carrying key `k` has value `v`. -/
theorem assocSet_key_val {α : Type} (m : List (String × α)) (k : String)
    (v : α) : ∀ p ∈ assocSet m k v, p.1 = k → p.2 = v := by
  intro p hp hk
  unfold assocSet at hp
  by_cases h : m.any (fun q => q.1 == k) = true
  · rw [if_pos h] at hp
    rcases List.mem_map.mp hp with ⟨q, _, rfl⟩
    by_cases hq : (q.1 == k) = true
    · rw [if_pos hq]
    · rw [if_neg hq] at hk ⊢
      exact absurd (by simp [hk]) hq
  · rw [if_neg h] at hp
    rcases List.mem_append.mp hp with hq | hq
    · have h' : m.any (fun q => q.1 == k) = false := Bool.eq_false_iff.mpr h
      exact absurd (by simp [hk]) (List.any_eq_false.mp h' p hq)
    · simp only [List.mem_singleton] at hq
      rw [hq]

/-- Filtering a list whose `k`-entries all carry `v` does not change the
`k` lookup as long as the filter keeps `(k, v)`. -/
theorem assocGet_filter_eq {α : Type} (m : List (String × α)) (k : String)
    (v : α) (P : String × α → Bool)
    (hall : ∀ p ∈ m, p.1 = k → p.2 = v) (hv : P (k, v) = true) :
    assocGet (m.filter P) k = assocGet m k := by
  induction m with
  | nil => rfl
  | cons a t ih =>
    have hall' : ∀ p ∈ t, p.1 = k → p.2 = v := fun p hp =>
      hall p (List.mem_cons_of_mem a hp)
    by_cases hk : (a.1 == k) = true
    · have ha : a = (k, v) := by
        have h1 : a.1 = k := by simpa using hk
        have h2 : a.2 = v := hall a (List.mem_cons_self a t) h1
        cases a
        simp_all
      rw [ha, List.filter_cons_of_pos hv]
      unfold assocGet
      simp [List.find?_cons]
    · by_cases hP : P a = true
      · rw [List.filter_cons_of_pos hP]
        unfold assocGet
        rw [List.find?_cons_of_neg _ (by simpa using hk),
          List.find?_cons_of_neg _ (by simpa using hk)]
        exact ih hall'
      · rw [List.filter_cons_of_neg (by simpa using hP)]
        unfold assocGet
        rw [List.find?_cons_of_neg _ (by simpa using hk)]
        exact ih hall'

/-- Looking up a removed key yields nothing. -/
theorem assocGet_assocRemove_self {α : Type} (m : List (String × α))
    (k : String) : assocGet (assocRemove m k) k = none := by
  induction m with
  | nil => rfl
  | cons a t ih =>
    unfold assocRemove at ih ⊢
    by_cases hk : a.1 = k
    · rw [List.filter_cons_of_neg (by simp [hk])]
      exact ih
    · rw [List.filter_cons_of_pos (by simp [bne_iff_ne, hk])]
      unfold assocGet
      rw [List.find?_cons_of_neg _ (by simp [hk])]
      exact ih

/-- Removing an absent key leaves the map untouched. -/
theorem assocRemove_of_not_any {α : Type} (m : List (String × α))
    (k : String) (h : m.any (fun p => p.1 == k) = false) :
    assocRemove m k = m := by
  induction m with
  | nil => rfl
  | cons a t ih =>
    simp only [List.any_cons, Bool.or_eq_false_iff] at h
    unfold assocRemove at ih ⊢
    have hne : ¬ a.1 = k := by simpa using h.1
    rw [List.filter_cons_of_pos (by simp [bne_iff_ne, hne]), ih h.2]

theorem toList_asString (l : List Char) : l.asString.toList = l := rfl

theorem length_asString (l : List Char) : l.asString.length = l.length := rfl

theorem asString_toList (s : String) : s.toList.asString = s := rfl

/-- `find?` over a split list: no hit on the left part, a hit at the
junction element. -/
theorem find?_split {α : Type} (t₁ t₂ : List α) (x : α) (pred : α → Bool)
    (h₁ : ∀ p ∈ t₁, pred p = false) (hx : pred x = true) :
    (t₁ ++ x :: t₂).find? pred = some x := by
  induction t₁ with
  | nil => rw [List.nil_append, List.find?_cons_of_pos _ hx]
  | cons a t ih =>
    rw [List.cons_append,
      List.find?_cons_of_neg _ (by simp [h₁ a (List.mem_cons_self a t)])]
    exact ih fun p hp => h₁ p (List.mem_cons_of_mem a hp)

/-! The claims, settled. -/

/-- C3: a sender with no cooldown entry is never on cooldown; after
`setCooldown` records `t0` (ms), the sender is on cooldown at time `t`
exactly when fewer than `cooldownSeconds` have elapsed, i.e.
`(t - t0) / 1000 < cooldownSeconds`.  The duration is taken nonnegative
and `t0` positive (JavaScript epoch timestamps are, and the code treats a
`0` timestamp as falsy). -/
theorem claim_C3_cooldown_semantics (m : CooldownMap) (sender : String)
    (t0 t c : ℚ) (hc : 0 ≤ c) (ht0 : 0 < t0) :
    (assocGet m sender = none → isOnCooldown m sender t c = false) ∧
    (isOnCooldown (setCooldown m sender t0 c) sender t c = true ↔
      (t - t0) / 1000 < c) := by
  constructor
  · intro h
    unfold isOnCooldown
    rw [h]
  · have hget : assocGet (setCooldown m sender t0 c) sender = some t0 := by
      unfold setCooldown
      dsimp only
      split
      · rw [assocGet_filter_eq (assocSet m sender t0) sender t0 _
            (assocSet_key_val m sender t0)
            (by
              simp only [Bool.not_eq_true', decide_eq_false_iff_not]
              intro hlt
              nlinarith)]
        exact assocGet_assocSet_self m sender t0
      · exact assocGet_assocSet_self m sender t0
    unfold isOnCooldown
    rw [hget]
    simp [Ne.symm (ne_of_gt ht0)]
    exact fun _ => ne_of_gt ht0

/-- C3 witness: a fresh map is off cooldown, and after marking at
`t0 = 1000` ms the sender is on cooldown at `t = 2000` ms for a 5 s
window. -/
theorem claim_C3_witness :
    ((assocGet ([] : CooldownMap) "s" = none →
        isOnCooldown [] "s" 2000 5 = false) ∧
      (isOnCooldown (setCooldown [] "s" 1000 5) "s" 2000 5 = true ↔
        ((2000 : ℚ) - 1000) / 1000 < 5)) :=
  claim_C3_cooldown_semantics [] "s" 1000 2000 5 (by norm_num) (by norm_num)

/-- C5: keyword resolution order — exact key match first; otherwise the
first rule in insertion order whose key plus a space or a comma starts the
text; otherwise no match.  Concretely `"book now please"` matches key
`"book"` while `"bookkeeper"` does not. -/
theorem claim_C5_keyword_matching :
    (∀ (kw : AIPipeline.KwTable) (text : String) (v : Option String),
        assocGet kw text = some v →
        AIPipeline.findKeywordReply kw text = some v) ∧
    (∀ (kw₁ kw₂ : AIPipeline.KwTable) (k text : String) (v : Option String),
        assocGet (kw₁ ++ (k, v) :: kw₂) text = none →
        (∀ p ∈ kw₁,
          (jsStartsWith text (p.1 ++ " ") ||
            jsStartsWith text (p.1 ++ ",")) = false) →
        (jsStartsWith text (k ++ " ") || jsStartsWith text (k ++ ",")) = true →
        AIPipeline.findKeywordReply (kw₁ ++ (k, v) :: kw₂) text = some v) ∧
    (∀ (kw : AIPipeline.KwTable) (text : String),
        assocGet kw text = none →
        (∀ p ∈ kw,
          (jsStartsWith text (p.1 ++ " ") ||
            jsStartsWith text (p.1 ++ ",")) = false) →
        AIPipeline.findKeywordReply kw text = none) ∧
    AIPipeline.findKeywordReply [("book", some "B")] "book now please" =
      some (some "B") ∧
    AIPipeline.findKeywordReply [("book", some "B")] "bookkeeper" = none := by
  refine ⟨?_, ?_, ?_, by decide, by decide⟩
  · intro kw text v h
    unfold AIPipeline.findKeywordReply
    rw [h]
  · intro kw₁ kw₂ k text v hnone h₁ hk
    unfold AIPipeline.findKeywordReply
    rw [hnone, find?_split kw₁ kw₂ (k, v) _ h₁ hk]
  · intro kw text hnone hall
    unfold AIPipeline.findKeywordReply
    rw [hnone, List.find?_eq_none.mpr (fun p hp => by simp [hall p hp])]

/-- C5 witness: the three matching modes at concrete rule tables. -/
theorem claim_C5_witness :
    AIPipeline.findKeywordReply [("hi", some "H")] "hi" = some (some "H") ∧
    AIPipeline.findKeywordReply [("x", some "X"), ("hi", some "H")]
      "hi, there" = some (some "H") ∧
    AIPipeline.findKeywordReply [("hi", some "H")] "hello" = none :=
  ⟨claim_C5_keyword_matching.1 [("hi", some "H")] "hi" (some "H") (by decide),
   claim_C5_keyword_matching.2.1 [("x", some "X")] [] "hi" "hi, there"
     (some "H") (by decide) (by decide) (by decide),
   claim_C5_keyword_matching.2.2.1 [("hi", some "H")] "hello" (by decide)
     (by decide)⟩

/-- C8: `setKeyword` lower-cases and upserts (last write wins), the new
value is what matching sees; `removeKeyword` deletes, never errors, and
leaves the table untouched when the keyword is absent. -/
theorem claim_C8_keyword_mutation (cfg : AIPipeline.AutoReplyConfig)
    (k : String) (r : Option String) :
    assocGet (AIPipeline.setKeyword cfg k r).keywords (jsToLower k) = some r ∧
    AIPipeline.findKeywordReply (AIPipeline.setKeyword cfg k r).keywords
      (jsToLower k) = some r ∧
    assocGet (AIPipeline.removeKeyword cfg k).keywords (jsToLower k) = none ∧
    (cfg.keywords.any (fun p => p.1 == (jsToLower k)) = false →
      (AIPipeline.removeKeyword cfg k).keywords = cfg.keywords) := by
  have h1 : assocGet (AIPipeline.setKeyword cfg k r).keywords (jsToLower k) =
      some r := assocGet_assocSet_self cfg.keywords (jsToLower k) r
  refine ⟨h1, ?_, ?_, ?_⟩
  · unfold AIPipeline.findKeywordReply
    rw [h1]
  · exact assocGet_assocRemove_self cfg.keywords (jsToLower k)
  · intro h
    exact assocRemove_of_not_any cfg.keywords (jsToLower k) h

/-- C8 witness: upsert over an existing key and removal of an absent
key on a concrete table. -/
theorem claim_C8_witness :
    assocGet (AIPipeline.setKeyword
        ⟨true, true, true, "D", [("hi", some "old")], 5⟩ "Hi"
        (some "new")).keywords "hi" = some (some "new") ∧
    (AIPipeline.removeKeyword
        ⟨true, true, true, "D", [("hi", some "old")], 5⟩ "absent").keywords =
      [("hi", some "old")] :=
  ⟨(claim_C8_keyword_mutation ⟨true, true, true, "D", [("hi", some "old")], 5⟩
      "Hi" (some "new")).1,
   (claim_C8_keyword_mutation ⟨true, true, true, "D", [("hi", some "old")], 5⟩
      "absent" none).2.2.2 (by decide)⟩

/-- Every menu digit resolves to some reply through `handleMenuOption`. -/
theorem handleMenuOption_isSome (gw : MenuEngine.MenuGateway)
    (mt p : String) (h : mt ∈ ["1", "2", "3", "4", "5"]) :
    (MenuEngine.handleMenuOption gw mt p).isSome = true := by
  fin_cases h <;>
    simp [MenuEngine.handleMenuOption, MenuEngine.MENU_RESPONSES,
      MenuEngine.menuResponse2, MenuEngine.menuResponse5]

/-- Branches 1-8 of the menu engine always choose some reply string. -/
theorem menuResolve_isSome (gw : MenuEngine.MenuGateway) (mt p : String) :
    (MenuEngine.menuResolve gw mt p).isSome = true := by
  unfold MenuEngine.menuResolve
  dsimp only
  split_ifs with h1 h2 h3 h4 h5 h6 h7
  · exact handleMenuOption_isSome gw mt p h1
  all_goals rfl

/-- C9: in the menu engine (message not from self or a group, auto-reply
on, sender off cooldown), every trimmed text that is not an
acknowledgement word yields a non-null reply; unmatched text gets the
apology-prefixed main menu; thanks-like acknowledgement gets the fixed
courtesy reply; any other acknowledgement is silence with no cooldown
marked and nothing sent. -/
theorem claim_C9_menu_coverage (cfg : MenuEngine.MenuConfig)
    (cdMap : CooldownMap) (gw : MenuEngine.MenuGateway) (sendOk : Bool)
    (now : ℚ) (msg : Message)
    (hself : msg.fromMe = false)
    (hgrp : jsIncludes msg.fromId "@g.us" = false)
    (hen : cfg.enabled = true)
    (hcd : isOnCooldown cdMap (fromWhatsAppId msg.fromId) now
      cfg.cooldown = false) :
    (jsToLower (jsTrim msg.body) ∉ MenuEngine.skipWords →
      (MenuEngine.handleIncomingMessage cfg cdMap gw sendOk now
          msg).decision.isSome = true) ∧
    (jsToLower (jsTrim msg.body) ∈ MenuEngine.skipWords →
      jsIncludes (jsToLower (jsTrim msg.body)) "thank" = true →
      (MenuEngine.handleIncomingMessage cfg cdMap gw sendOk now
          msg).decision = some MenuEngine.thankYouReply) ∧
    (jsToLower (jsTrim msg.body) ∈ MenuEngine.skipWords →
      jsIncludes (jsToLower (jsTrim msg.body)) "thank" = false →
      (MenuEngine.handleIncomingMessage cfg cdMap gw sendOk now
          msg).decision = none ∧
      (MenuEngine.handleIncomingMessage cfg cdMap gw sendOk now
          msg).cooldownMap = cdMap ∧
      (MenuEngine.handleIncomingMessage cfg cdMap gw sendOk now
          msg).sendAttempts = 0) ∧
    (jsToLower (jsTrim msg.body) ∉ MenuEngine.skipWords →
      jsTrim msg.body ∉ (["1", "2", "3", "4", "5"] : List String) →
      MenuEngine.isGreeting (jsToLower (jsTrim msg.body)) = false →
      MenuEngine.isBookingQuery (jsToLower (jsTrim msg.body)) = false →
      MenuEngine.isAvailabilityQuery (jsToLower (jsTrim msg.body)) = false →
      MenuEngine.isScheduleQuery (jsToLower (jsTrim msg.body)) = false →
      MenuEngine.isNewBookingQuery (jsToLower (jsTrim msg.body)) = false →
      MenuEngine.isContactQuery (jsToLower (jsTrim msg.body)) = false →
      (MenuEngine.handleIncomingMessage cfg cdMap gw sendOk now
          msg).decision = some MenuEngine.didNotUnderstandReply) := by
  have nself : ¬(msg.fromMe = true) := by simp [hself]
  have ngrp : ¬(jsIncludes msg.fromId "@g.us" = true) := by simp [hgrp]
  have nen : ¬((!cfg.enabled) = true) := by simp [hen]
  have ncd : ¬(isOnCooldown cdMap (fromWhatsAppId msg.fromId) now
      cfg.cooldown = true) := by simp [hcd]
  have hcore : MenuEngine.handleIncomingMessage cfg cdMap gw sendOk now
      msg =
      (if jsToLower (jsTrim msg.body) ∈ MenuEngine.skipWords then
        (if jsIncludes (jsToLower (jsTrim msg.body)) "thank" = true then
          (if sendOk = true then
            ⟨some MenuEngine.thankYouReply,
              setCooldown cdMap (fromWhatsAppId msg.fromId) now
                cfg.cooldown, 1, false⟩
          else ⟨some MenuEngine.thankYouReply, cdMap, 1, false⟩)
        else ⟨none, cdMap, 0, false⟩)
      else
        match MenuEngine.menuResolve gw (jsTrim msg.body)
            (fromWhatsAppId msg.fromId) with
        | some s =>
          if s = "" then ⟨some "", cdMap, 0, false⟩
          else if sendOk = true then
            ⟨some s, setCooldown cdMap (fromWhatsAppId msg.fromId) now
              cfg.cooldown, 1, false⟩
          else ⟨some s, cdMap, 1, true⟩
        | none => ⟨none, cdMap, 0, false⟩) := by
    unfold MenuEngine.handleIncomingMessage
    rw [if_neg nself, if_neg ngrp]
    dsimp only
    rw [if_neg nen, if_neg ncd]
  rw [hcore]
  refine ⟨?_, ?_, ?_, ?_⟩
  · intro hns
    rw [if_neg hns]
    rcases hm : MenuEngine.menuResolve gw (jsTrim msg.body)
        (fromWhatsAppId msg.fromId) with _ | s
    · have h := menuResolve_isSome gw (jsTrim msg.body)
        (fromWhatsAppId msg.fromId)
      rw [hm] at h
      simp at h
    · dsimp only
      split_ifs <;> rfl
  · intro hsk hth
    rw [if_pos hsk, if_pos hth]
    cases sendOk <;> rfl
  · intro hsk hth
    rw [if_pos hsk, if_neg (by simp [hth])]
    exact ⟨rfl, rfl, rfl⟩
  · intro hns n1 n2 n3 n4 n5 n6 n7
    have hm : MenuEngine.menuResolve gw (jsTrim msg.body)
        (fromWhatsAppId msg.fromId) =
        some MenuEngine.didNotUnderstandReply := by
      have m2 : ¬(MenuEngine.isGreeting (jsToLower (jsTrim msg.body)) =
          true) := by simp [n2]
      have m3 : ¬(MenuEngine.isBookingQuery (jsToLower (jsTrim msg.body)) =
          true) := by simp [n3]
      have m4 : ¬(MenuEngine.isAvailabilityQuery
          (jsToLower (jsTrim msg.body)) = true) := by simp [n4]
      have m5 : ¬(MenuEngine.isScheduleQuery (jsToLower (jsTrim msg.body)) =
          true) := by simp [n5]
      have m6 : ¬(MenuEngine.isNewBookingQuery
          (jsToLower (jsTrim msg.body)) = true) := by simp [n6]
      have m7 : ¬(MenuEngine.isContactQuery (jsToLower (jsTrim msg.body)) =
          true) := by simp [n7]
      unfold MenuEngine.menuResolve
      dsimp only
      rw [if_neg n1, if_neg m2, if_neg m3, if_neg m4, if_neg m5, if_neg m6,
        if_neg m7]
    rw [if_neg hns, hm]
    dsimp only
    rw [if_neg (show ¬(MenuEngine.didNotUnderstandReply = "") by decide)]
    cases sendOk <;> rfl

/-- C9 witness: `"ok"` is silenced without marking a cooldown,
`"thanks"` gets the courtesy reply, and unmatched `"xyzq"` gets the
apology-prefixed menu. -/
theorem claim_C9_witness :
    ((MenuEngine.handleIncomingMessage ⟨true, true, "D", 5⟩ []
        ⟨none, none, none⟩ true 1000
        ⟨false, "911@c.us", "ok"⟩).decision = none ∧
      (MenuEngine.handleIncomingMessage ⟨true, true, "D", 5⟩ []
        ⟨none, none, none⟩ true 1000
        ⟨false, "911@c.us", "ok"⟩).cooldownMap = [] ∧
      (MenuEngine.handleIncomingMessage ⟨true, true, "D", 5⟩ []
        ⟨none, none, none⟩ true 1000
        ⟨false, "911@c.us", "ok"⟩).sendAttempts = 0) ∧
    (MenuEngine.handleIncomingMessage ⟨true, true, "D", 5⟩ []
        ⟨none, none, none⟩ true 1000
        ⟨false, "911@c.us", "thanks"⟩).decision =
      some MenuEngine.thankYouReply ∧
    (MenuEngine.handleIncomingMessage ⟨true, true, "D", 5⟩ []
        ⟨none, none, none⟩ true 1000
        ⟨false, "911@c.us", "xyzq"⟩).decision =
      some MenuEngine.didNotUnderstandReply :=
  ⟨(claim_C9_menu_coverage ⟨true, true, "D", 5⟩ [] ⟨none, none, none⟩
      true 1000 ⟨false, "911@c.us", "ok"⟩ (by decide) (by decide)
      (by decide) (by decide)).2.2.1 (by decide) (by decide),
   (claim_C9_menu_coverage ⟨true, true, "D", 5⟩ [] ⟨none, none, none⟩
      true 1000 ⟨false, "911@c.us", "thanks"⟩ (by decide) (by decide)
      (by decide) (by decide)).2.1 (by decide) (by decide),
   (claim_C9_menu_coverage ⟨true, true, "D", 5⟩ [] ⟨none, none, none⟩
      true 1000 ⟨false, "911@c.us", "xyzq"⟩ (by decide) (by decide)
      (by decide) (by decide)).2.2.2 (by decide) (by decide) (by decide)
      (by decide) (by decide) (by decide) (by decide) (by decide)⟩

/-- The booking helpers ignore the phone argument (its value only
parametrizes the gateway call the oracle fixes), so `handleMenuOption`
does not depend on it. -/
theorem handleMenuOption_phone (gw : MenuEngine.MenuGateway)
    (o p q : String) :
    MenuEngine.handleMenuOption gw o p = MenuEngine.handleMenuOption gw o q
      := rfl

/-- `menuResolve` does not depend on the phone argument either. -/
theorem menuResolve_phone (gw : MenuEngine.MenuGateway) (mt p q : String) :
    MenuEngine.menuResolve gw mt p = MenuEngine.menuResolve gw mt q := rfl

/-- For a text that is not thanks-like and not `"tq"`/`"ty"`, membership
in the live skip list agrees with membership in `testReply`'s list. -/
theorem mem_skipWords_iff (t : String)
    (hth : jsIncludes t "thank" = false) (htq : t ≠ "tq")
    (hty : t ≠ "ty") :
    t ∈ MenuEngine.skipWords ↔ t ∈ MenuEngine.testSkipWords := by
  constructor
  · intro h
    fin_cases h <;>
      first
        | decide
        | exact absurd hth (by decide)
        | exact absurd rfl htq
        | exact absurd rfl hty
  · intro h
    fin_cases h <;> decide

/-- The tail of `testReply` (after its skip and thanks checks) computes
exactly the shared branch chain `menuResolve`. -/
theorem testReply_eq_menuResolve (gw : MenuEngine.MenuGateway)
    (body phone : String)
    (hns : jsToLower (jsTrim body) ∉ MenuEngine.testSkipWords)
    (hth : jsIncludes (jsToLower (jsTrim body)) "thank" = false) :
    (MenuEngine.testReply gw body phone).1 =
      MenuEngine.menuResolve gw (jsTrim body) phone := by
  have nth : ¬(jsIncludes (jsToLower (jsTrim body)) "thank" = true) := by
    simp [hth]
  unfold MenuEngine.testReply MenuEngine.menuResolve
  dsimp only
  rw [if_neg hns, if_neg nth]
  split_ifs <;> rfl

/-- For a processed non-acknowledgement message, the live menu handler
decides exactly `menuResolve`. -/
theorem live_decision_eq_menuResolve (cfg : MenuEngine.MenuConfig)
    (cdMap : CooldownMap) (gw : MenuEngine.MenuGateway) (sendOk : Bool)
    (now : ℚ) (msg : Message)
    (hself : msg.fromMe = false)
    (hgrp : jsIncludes msg.fromId "@g.us" = false)
    (hen : cfg.enabled = true)
    (hcd : isOnCooldown cdMap (fromWhatsAppId msg.fromId) now
      cfg.cooldown = false)
    (hns : jsToLower (jsTrim msg.body) ∉ MenuEngine.skipWords) :
    (MenuEngine.handleIncomingMessage cfg cdMap gw sendOk now
        msg).decision =
      MenuEngine.menuResolve gw (jsTrim msg.body)
        (fromWhatsAppId msg.fromId) := by
  have nself : ¬(msg.fromMe = true) := by simp [hself]
  have ngrp : ¬(jsIncludes msg.fromId "@g.us" = true) := by simp [hgrp]
  have nen : ¬((!cfg.enabled) = true) := by simp [hen]
  have ncd : ¬(isOnCooldown cdMap (fromWhatsAppId msg.fromId) now
      cfg.cooldown = true) := by simp [hcd]
  unfold MenuEngine.handleIncomingMessage
  rw [if_neg nself, if_neg ngrp]
  dsimp only
  rw [if_neg nen, if_neg ncd, if_neg hns]
  rcases hm : MenuEngine.menuResolve gw (jsTrim msg.body)
      (fromWhatsAppId msg.fromId) with _ | s
  · rfl
  · dsimp only
    split_ifs with hs hOk
    · rw [hs]
    · rfl
    · rfl

/-- For a processed acknowledgement message that is not thanks-like, the
live menu handler is silent. -/
theorem live_decision_skip (cfg : MenuEngine.MenuConfig)
    (cdMap : CooldownMap) (gw : MenuEngine.MenuGateway) (sendOk : Bool)
    (now : ℚ) (msg : Message)
    (hself : msg.fromMe = false)
    (hgrp : jsIncludes msg.fromId "@g.us" = false)
    (hen : cfg.enabled = true)
    (hcd : isOnCooldown cdMap (fromWhatsAppId msg.fromId) now
      cfg.cooldown = false)
    (hsk : jsToLower (jsTrim msg.body) ∈ MenuEngine.skipWords)
    (hth : jsIncludes (jsToLower (jsTrim msg.body)) "thank" = false) :
    (MenuEngine.handleIncomingMessage cfg cdMap gw sendOk now
        msg).decision = none := by
  have nself : ¬(msg.fromMe = true) := by simp [hself]
  have ngrp : ¬(jsIncludes msg.fromId "@g.us" = true) := by simp [hgrp]
  have nen : ¬((!cfg.enabled) = true) := by simp [hen]
  have ncd : ¬(isOnCooldown cdMap (fromWhatsAppId msg.fromId) now
      cfg.cooldown = true) := by simp [hcd]
  have nth : ¬(jsIncludes (jsToLower (jsTrim msg.body)) "thank" = true) :=
    by simp [hth]
  unfold MenuEngine.handleIncomingMessage
  rw [if_neg nself, if_neg ngrp]
  dsimp only
  rw [if_neg nen, if_neg ncd, if_pos hsk, if_neg nth]

/-- C6 (amended): for a processed message (not from self or a group,
auto-reply on, sender off cooldown) whose trimmed lowercased text does
not contain `"thank"` and is neither `"tq"` nor `"ty"`, `testReply`
returns the same reply decision (reply text or silence) as the live
menu-engine handler. -/
theorem claim_C6_testReply_mirror (cfg : MenuEngine.MenuConfig)
    (cdMap : CooldownMap) (gw : MenuEngine.MenuGateway) (sendOk : Bool)
    (now : ℚ) (msg : Message) (phone : String)
    (hself : msg.fromMe = false)
    (hgrp : jsIncludes msg.fromId "@g.us" = false)
    (hen : cfg.enabled = true)
    (hcd : isOnCooldown cdMap (fromWhatsAppId msg.fromId) now
      cfg.cooldown = false)
    (hth : jsIncludes (jsToLower (jsTrim msg.body)) "thank" = false)
    (htq : jsToLower (jsTrim msg.body) ≠ "tq")
    (hty : jsToLower (jsTrim msg.body) ≠ "ty") :
    (MenuEngine.handleIncomingMessage cfg cdMap gw sendOk now
        msg).decision = (MenuEngine.testReply gw msg.body phone).1 := by
  by_cases hmem : jsToLower (jsTrim msg.body) ∈ MenuEngine.testSkipWords
  · have hmem' : jsToLower (jsTrim msg.body) ∈ MenuEngine.skipWords :=
      (mem_skipWords_iff (jsToLower (jsTrim msg.body)) hth htq hty).mpr hmem
    rw [live_decision_skip cfg cdMap gw sendOk now msg hself hgrp hen hcd
      hmem' hth]
    unfold MenuEngine.testReply
    dsimp only
    rw [if_pos hmem]
  · have hmem' : jsToLower (jsTrim msg.body) ∉ MenuEngine.skipWords :=
      fun h => hmem
        ((mem_skipWords_iff (jsToLower (jsTrim msg.body)) hth htq hty).mp h)
    rw [live_decision_eq_menuResolve cfg cdMap gw sendOk now msg hself
      hgrp hen hcd hmem',
      testReply_eq_menuResolve gw msg.body phone hmem hth]
    exact menuResolve_phone gw (jsTrim msg.body) (fromWhatsAppId msg.fromId)
      phone

/-- C6 witness: on the greeting `"hello"` the live handler and
`testReply` agree (both return the main menu). -/
theorem claim_C6_witness :
    (MenuEngine.handleIncomingMessage ⟨true, true, "D", 5⟩ []
        ⟨none, none, none⟩ true 1000
        ⟨false, "911@c.us", "hello"⟩).decision =
      (MenuEngine.testReply ⟨none, none, none⟩ "hello" "911").1 :=
  claim_C6_testReply_mirror ⟨true, true, "D", 5⟩ [] ⟨none, none, none⟩
    true 1000 ⟨false, "911@c.us", "hello"⟩ "911" (by decide) (by decide)
    (by decide) (by decide) (by decide) (by decide) (by decide)

set_option maxRecDepth 8000 in
/-- C6 counterexample to the claim as stated: for the ordinary text
`"thank god"` from an eligible sender, the live handler answers with the
apology-prefixed main menu while `testReply` answers with the courtesy
reply — the two entry points disagree. -/
theorem claim_C6_counterexample :
    (MenuEngine.handleIncomingMessage ⟨true, true, "D", 5⟩ []
        ⟨none, none, none⟩ true 1000
        ⟨false, "911@c.us", "thank god"⟩).decision =
      some MenuEngine.didNotUnderstandReply ∧
    (MenuEngine.testReply ⟨none, none, none⟩ "thank god" "911").1 =
      some MenuEngine.thankYouReply ∧
    some MenuEngine.didNotUnderstandReply ≠
      some MenuEngine.thankYouReply := by
  refine ⟨by decide, by decide, by decide⟩

/-- C10: the phone string sent to the booking backend consists of digits
only, is at most 10 long, and any two sender identifiers whose digit
sequences agree in their last 10 digits are looked up identically. -/
theorem claim_C10_phone_normalization :
    (∀ phone : String, ∀ ch ∈ (SupraApi.lookupBookingPhone phone).toList,
        ch.isDigit = true) ∧
    (∀ phone : String, (SupraApi.lookupBookingPhone phone).length ≤ 10) ∧
    (∀ p1 p2 : String,
        10 ≤ (SupraApi.stripNonDigits p1).length →
        10 ≤ (SupraApi.stripNonDigits p2).length →
        SupraApi.sliceLast (SupraApi.stripNonDigits p1) 10 =
          SupraApi.sliceLast (SupraApi.stripNonDigits p2) 10 →
        SupraApi.lookupBookingPhone p1 = SupraApi.lookupBookingPhone p2) := by
  have hfix : ∀ phone : String, 10 ≤ (SupraApi.stripNonDigits phone).length →
      SupraApi.lookupBookingPhone phone =
        SupraApi.sliceLast (SupraApi.stripNonDigits phone) 10 := by
    intro phone h10
    unfold SupraApi.lookupBookingPhone
    dsimp only
    split
    · rfl
    · rename_i hlt
      have hlen : (SupraApi.stripNonDigits phone).length = 10 :=
        le_antisymm (Nat.le_of_not_lt hlt) h10
      unfold SupraApi.sliceLast
      rw [show (SupraApi.stripNonDigits phone).toList.length = 10 from hlen,
        Nat.sub_self, List.drop_zero, asString_toList]
  refine ⟨?_, ?_, ?_⟩
  · intro phone ch hch
    unfold SupraApi.lookupBookingPhone at hch
    dsimp only at hch
    have hmem : ch ∈ (SupraApi.stripNonDigits phone).toList := by
      split at hch
      · unfold SupraApi.sliceLast at hch
        rw [toList_asString] at hch
        exact List.mem_of_mem_drop hch
      · exact hch
    unfold SupraApi.stripNonDigits at hmem
    rw [toList_asString] at hmem
    exact (List.mem_filter.mp hmem).2
  · intro phone
    unfold SupraApi.lookupBookingPhone
    dsimp only
    split
    · unfold SupraApi.sliceLast
      rw [length_asString, List.length_drop]
      omega
    · rename_i hlt
      exact Nat.le_of_not_lt hlt
  · intro p1 p2 h1 h2 heq
    rw [hfix p1 h1, hfix p2 h2, heq]

/-- C7: `updateAutoReplyConfig` applies exactly the recognized,
correctly-typed fields (`enabled` boolean, `defaultMessage` string,
`cooldown` number, `keywords` object merged key-by-key), silently ignores
every mistyped or absent field (it is a total function, so nothing is ever
raised), leaves the untouched toggles alone, and returns the resulting
configuration. -/
theorem claim_C7_update_config (cfg : AIPipeline.AutoReplyConfig)
    (p : AIPipeline.PartialConfig) :
    (AIPipeline.updateAutoReplyConfig cfg p).enabled =
      (match p.enabled with
        | some (.jbool b) => b
        | _ => cfg.enabled) ∧
    (AIPipeline.updateAutoReplyConfig cfg p).defaultMessage =
      (match p.defaultMessage with
        | some (.jstr s) => s
        | _ => cfg.defaultMessage) ∧
    (AIPipeline.updateAutoReplyConfig cfg p).cooldown =
      (match p.cooldown with
        | some (.jnum q) => q
        | _ => cfg.cooldown) ∧
    (AIPipeline.updateAutoReplyConfig cfg p).keywords =
      (match p.keywords with
        | some (.jobj m) => AIPipeline.spreadMerge cfg.keywords m
        | _ => cfg.keywords) ∧
    (AIPipeline.updateAutoReplyConfig cfg p).useAI = cfg.useAI ∧
    (AIPipeline.updateAutoReplyConfig cfg p).useDatabase = cfg.useDatabase := by
  obtain ⟨e, d, c, k⟩ := p
  rcases e with _ | (_ | _ | _ | _ | _) <;>
    rcases d with _ | (_ | _ | _ | _ | _) <;>
      rcases c with _ | (_ | _ | _ | _ | _) <;>
        rcases k with _ | (_ | _ | _ | _ | _) <;>
          exact ⟨rfl, rfl, rfl, rfl, rfl, rfl⟩

/-- When any of the three intent blocks triggers, `handleDatabaseQuery`
performs at least one gateway call. -/
theorem one_le_dbCalls (gw : AIPipeline.Gateway) (mt : String)
    (h : (AIPipeline.bookingTrigger (jsToLower mt) ||
        AIPipeline.seatTrigger (jsToLower mt) ||
        AIPipeline.scheduleTrigger (jsToLower mt)) = true) :
    1 ≤ (AIPipeline.handleDatabaseQuery gw mt).2 := by
  unfold AIPipeline.handleDatabaseQuery
  simp only [Bool.or_eq_true] at h
  rcases gw with ⟨gb, ga, gs⟩
  dsimp only
  by_cases h1 : AIPipeline.bookingTrigger (jsToLower mt) = true <;>
    by_cases h2 : AIPipeline.seatTrigger (jsToLower mt) = true <;>
      by_cases h3 : AIPipeline.scheduleTrigger (jsToLower mt) = true <;>
        rcases gb with _ | b <;> rcases ga with _ | av <;>
          rcases gs with _ | sc <;>
            simp_all

/-- The observable outcome of `handleIncomingMessage` is determined by
the resolved `replyMessage`: the gateway-call count is the resolution
count, and the decision is the resolved reply when truthy, silence
otherwise. -/
theorem handle_spec (cfg : AIPipeline.AutoReplyConfig) (cdMap : CooldownMap)
    (gw : AIPipeline.Gateway) (ai : AIPipeline.AIService) (sendOk : Bool)
    (now : ℚ) (msg : Message) :
    (AIPipeline.handleIncomingMessage cfg cdMap gw ai sendOk now
        msg).gatewayCalls =
      (AIPipeline.resolveReply cfg cdMap gw ai now msg).2.1 ∧
    (AIPipeline.handleIncomingMessage cfg cdMap gw ai sendOk now
        msg).aiCalls =
      (AIPipeline.resolveReply cfg cdMap gw ai now msg).2.2 ∧
    (AIPipeline.handleIncomingMessage cfg cdMap gw ai sendOk now
        msg).decision =
      (if jsTruthy (AIPipeline.resolveReply cfg cdMap gw ai now msg).1 = true
        then (AIPipeline.resolveReply cfg cdMap gw ai now msg).1
        else none) := by
  unfold AIPipeline.handleIncomingMessage
  rcases hr : AIPipeline.resolveReply cfg cdMap gw ai now msg with ⟨rm, g, a⟩
  dsimp only
  rcases rm with _ | s
  · simp [jsTruthy]
  · dsimp only
    by_cases hs : s = ""
    · subst hs
      simp [jsTruthy]
    · rw [if_neg hs]
      cases sendOk <;> simp [jsTruthy, hs]

/-- C1 (amended): for a processed message (not from self or a group,
auto-reply on, sender off cooldown, database stage on) whose text triggers
a live-data intent and matches a keyword rule — without being an exact
no-reply match, which would suppress before the gateway — the live-data
stage runs first (at least one gateway call): a truthy formatted gateway
result is the reply; when the gateway yields nothing and the AI stage
produces no truthy reply (disabled, unavailable, failed or empty), the
keyword-derived reply is used (keyword-configured silence stays silence). -/
theorem claim_C1_live_data_precedence (cfg : AIPipeline.AutoReplyConfig)
    (cdMap : CooldownMap) (gw : AIPipeline.Gateway)
    (ai : AIPipeline.AIService) (sendOk : Bool) (now : ℚ) (msg : Message)
    (v : Option String)
    (hself : msg.fromMe = false)
    (hgrp : jsIncludes msg.fromId "@g.us" = false)
    (hen : cfg.enabled = true)
    (hcd : isOnCooldown cdMap (fromWhatsAppId msg.fromId) now
      cfg.cooldown = false)
    (hdb : cfg.useDatabase = true)
    (hintent : (AIPipeline.bookingTrigger (jsToLower (jsTrim msg.body)) ||
        AIPipeline.seatTrigger (jsToLower (jsTrim msg.body)) ||
        AIPipeline.scheduleTrigger (jsToLower (jsTrim msg.body))) = true)
    (hkw : AIPipeline.findKeywordReply cfg.keywords
        (jsToLower (jsTrim msg.body)) = some v)
    (hsup : assocGet cfg.keywords (jsToLower (jsTrim msg.body)) ≠ some none)
    (hai : (cfg.useAI && ai.enabled && jsTruthy ai.reply) = false) :
    1 ≤ (AIPipeline.handleIncomingMessage cfg cdMap gw ai sendOk now
        msg).gatewayCalls ∧
    (jsTruthy (AIPipeline.handleDatabaseQuery gw (jsTrim msg.body)).1 =
        true →
      (AIPipeline.handleIncomingMessage cfg cdMap gw ai sendOk now
          msg).decision =
        (AIPipeline.handleDatabaseQuery gw (jsTrim msg.body)).1) ∧
    (jsTruthy (AIPipeline.handleDatabaseQuery gw (jsTrim msg.body)).1 =
        false →
      (AIPipeline.handleIncomingMessage cfg cdMap gw ai sendOk now
          msg).decision = (if jsTruthy v = true then v else none)) := by
  have hsup' : (assocGet cfg.keywords (jsToLower (jsTrim msg.body)) ==
      some none) = false := by
    rcases hx : assocGet cfg.keywords (jsToLower (jsTrim msg.body)) with _ | w
    · rfl
    · rcases w with _ | s
      · exact absurd hx hsup
      · rfl
  obtain ⟨hG, hA, hD⟩ :=
    handle_spec cfg cdMap gw ai sendOk now msg
  rcases hdq : AIPipeline.handleDatabaseQuery gw (jsTrim msg.body)
    with ⟨db, g1⟩
  have hg1 : 1 ≤ g1 := by
    have h := one_le_dbCalls gw (jsTrim msg.body) hintent
    rw [hdq] at h
    exact h
  by_cases hdbt : jsTruthy db = true
  · have hres : AIPipeline.resolveReply cfg cdMap gw ai now msg =
        (db, g1, 0) := by
      unfold AIPipeline.resolveReply
      simp only [hself, hgrp, hen, hcd, hsup', hdb, hdq]
      simp [hdbt]
    rw [hres] at hG hD
    dsimp only at hG hD
    rw [hdbt] at hD
    refine ⟨?_, fun _ => ?_, fun hcon => ?_⟩
    · rw [hG]
      exact hg1
    · rw [hD]
      simp
    · rw [hdbt] at hcon
      exact absurd hcon (by simp)
  · have hdbf : jsTruthy db = false := Bool.eq_false_iff.mpr hdbt
    have hone : AIPipeline.resolveReply cfg cdMap gw ai now msg =
        (v, g1 + 3, 1) ∨
        AIPipeline.resolveReply cfg cdMap gw ai now msg = (v, g1, 0) := by
      by_cases hua : cfg.useAI = true
      · by_cases hae : ai.enabled = true
        · left
          have hait : jsTruthy ai.reply = false := by
            simpa [hua, hae] using hai
          unfold AIPipeline.resolveReply
          simp only [hself, hgrp, hen, hcd, hsup', hdb, hdq]
          simp [hdbf, hua, hae, hait, hkw]
        · right
          have hae' : ai.enabled = false := Bool.eq_false_iff.mpr hae
          unfold AIPipeline.resolveReply
          simp only [hself, hgrp, hen, hcd, hsup', hdb, hdq]
          simp [hdbf, hua, hae', hkw]
      · right
        have hua' : cfg.useAI = false := Bool.eq_false_iff.mpr hua
        unfold AIPipeline.resolveReply
        simp only [hself, hgrp, hen, hcd, hsup', hdb, hdq]
        simp [hdbf, hua', hkw]
    rcases hone with hres | hres <;>
      [skip; skip] <;>
      (rw [hres] at hG hD
       dsimp only at hG hD
       refine ⟨?_, fun hcon => ?_, fun _ => ?_⟩
       · rw [hG]
         omega
       · rw [hdbf] at hcon
         exact absurd hcon (by simp)
       · exact hD)

/-- C1 witness: with the AI toggle off and a failing gateway, the
booking-intent message falls through to its keyword reply. -/
theorem claim_C1_witness :
    1 ≤ (AIPipeline.handleIncomingMessage
        ⟨true, false, true, "DEF", [("book", some "KW")], 5⟩ []
        ⟨none, none, none⟩ ⟨false, none⟩ true 1000
        ⟨false, "911@c.us", "book my ticket"⟩).gatewayCalls ∧
    (jsTruthy (AIPipeline.handleDatabaseQuery ⟨none, none, none⟩
        (jsTrim "book my ticket")).1 = true →
      (AIPipeline.handleIncomingMessage
          ⟨true, false, true, "DEF", [("book", some "KW")], 5⟩ []
          ⟨none, none, none⟩ ⟨false, none⟩ true 1000
          ⟨false, "911@c.us", "book my ticket"⟩).decision =
        (AIPipeline.handleDatabaseQuery ⟨none, none, none⟩
          (jsTrim "book my ticket")).1) ∧
    (jsTruthy (AIPipeline.handleDatabaseQuery ⟨none, none, none⟩
        (jsTrim "book my ticket")).1 = false →
      (AIPipeline.handleIncomingMessage
          ⟨true, false, true, "DEF", [("book", some "KW")], 5⟩ []
          ⟨none, none, none⟩ ⟨false, none⟩ true 1000
          ⟨false, "911@c.us", "book my ticket"⟩).decision =
        (if jsTruthy (some "KW") = true then some "KW" else none)) :=
  claim_C1_live_data_precedence
    ⟨true, false, true, "DEF", [("book", some "KW")], 5⟩ []
    ⟨none, none, none⟩ ⟨false, none⟩ true 1000
    ⟨false, "911@c.us", "book my ticket"⟩ (some "KW") (by decide)
    (by decide) (by decide) (by decide) (by decide) (by decide) (by decide)
    (by decide) (by decide)

/-- C1 counterexample to the claim as stated: the text
`"book my ticket"` triggers the booking intent and prefix-matches the
keyword rule `("book", "KW")`; the gateway fails (all lookups decline),
yet the reply is the AI-generated text, not the keyword-derived reply. -/
theorem claim_C1_counterexample :
    AIPipeline.bookingTrigger (jsToLower (jsTrim "book my ticket")) = true ∧
    AIPipeline.findKeywordReply [("book", some "KW")]
      (jsToLower (jsTrim "book my ticket")) = some (some "KW") ∧
    (AIPipeline.handleDatabaseQuery ⟨none, none, none⟩
      (jsTrim "book my ticket")).1 = none ∧
    (AIPipeline.handleIncomingMessage
        ⟨true, true, true, "DEF", [("book", some "KW")], 5⟩ []
        ⟨none, none, none⟩ ⟨true, some "AI!"⟩ true 1000
        ⟨false, "911@c.us", "book my ticket"⟩).decision = some "AI!" ∧
    some "AI!" ≠ some "KW" := by
  refine ⟨by decide, by decide, by decide, by decide, by decide⟩

/-- C2: an inbound message whose trimmed lowercased text exactly matches a
no-reply (`null`) keyword rule is handled with terminal silence and zero
gateway calls, zero AI calls, zero send attempts, and an unchanged
cooldown map. -/
theorem claim_C2_suppress_before_calls (cfg : AIPipeline.AutoReplyConfig)
    (cdMap : CooldownMap) (gw : AIPipeline.Gateway)
    (ai : AIPipeline.AIService) (sendOk : Bool) (now : ℚ) (msg : Message)
    (h : assocGet cfg.keywords (jsToLower (jsTrim msg.body)) = some none) :
    (AIPipeline.handleIncomingMessage cfg cdMap gw ai sendOk now
        msg).decision = none ∧
    (AIPipeline.handleIncomingMessage cfg cdMap gw ai sendOk now
        msg).gatewayCalls = 0 ∧
    (AIPipeline.handleIncomingMessage cfg cdMap gw ai sendOk now
        msg).aiCalls = 0 ∧
    (AIPipeline.handleIncomingMessage cfg cdMap gw ai sendOk now
        msg).sendAttempts = 0 ∧
    (AIPipeline.handleIncomingMessage cfg cdMap gw ai sendOk now
        msg).cooldownMap = cdMap := by
  have hres : AIPipeline.resolveReply cfg cdMap gw ai now msg =
      (none, 0, 0) := by
    unfold AIPipeline.resolveReply
    dsimp only
    split_ifs with h1 h2 h3 h4 h5 <;>
      first
        | rfl
        | exact absurd (by rw [h]; rfl) h5
  have hall : AIPipeline.handleIncomingMessage cfg cdMap gw ai sendOk now
      msg = ⟨none, cdMap, 0, 0, 0, false⟩ := by
    unfold AIPipeline.handleIncomingMessage
    rw [hres]
  rw [hall]
  exact ⟨rfl, rfl, rfl, rfl, rfl⟩

/-- C2 witness: the configured no-reply rule for `"ok"` silences
`" OK "` with zero collaborator calls even though every collaborator
would have answered. -/
theorem claim_C2_witness :
    (AIPipeline.handleIncomingMessage
        ⟨true, true, true, "D", [("ok", none)], 5⟩ []
        ⟨some "DB", some "DB", some "DB"⟩ ⟨true, some "AI"⟩ true 1000
        ⟨false, "911@c.us", " OK "⟩).decision = none ∧
    (AIPipeline.handleIncomingMessage
        ⟨true, true, true, "D", [("ok", none)], 5⟩ []
        ⟨some "DB", some "DB", some "DB"⟩ ⟨true, some "AI"⟩ true 1000
        ⟨false, "911@c.us", " OK "⟩).gatewayCalls = 0 ∧
    (AIPipeline.handleIncomingMessage
        ⟨true, true, true, "D", [("ok", none)], 5⟩ []
        ⟨some "DB", some "DB", some "DB"⟩ ⟨true, some "AI"⟩ true 1000
        ⟨false, "911@c.us", " OK "⟩).aiCalls = 0 ∧
    (AIPipeline.handleIncomingMessage
        ⟨true, true, true, "D", [("ok", none)], 5⟩ []
        ⟨some "DB", some "DB", some "DB"⟩ ⟨true, some "AI"⟩ true 1000
        ⟨false, "911@c.us", " OK "⟩).sendAttempts = 0 ∧
    (AIPipeline.handleIncomingMessage
        ⟨true, true, true, "D", [("ok", none)], 5⟩ []
        ⟨some "DB", some "DB", some "DB"⟩ ⟨true, some "AI"⟩ true 1000
        ⟨false, "911@c.us", " OK "⟩).cooldownMap = [] :=
  claim_C2_suppress_before_calls
    ⟨true, true, true, "D", [("ok", none)], 5⟩ []
    ⟨some "DB", some "DB", some "DB"⟩ ⟨true, some "AI"⟩ true 1000
    ⟨false, "911@c.us", " OK "⟩ (by decide)

/-- C4: whenever handling ends with a reply being handed to the
transport, exactly one send is attempted (never a retry); the cooldown is
marked only when the send succeeds, and a failed send is logged and
leaves the cooldown map unchanged. -/
theorem claim_C4_send_failure (cfg : AIPipeline.AutoReplyConfig)
    (cdMap : CooldownMap) (gw : AIPipeline.Gateway)
    (ai : AIPipeline.AIService) (sendOk : Bool) (now : ℚ) (msg : Message)
    (s : String)
    (h : (AIPipeline.handleIncomingMessage cfg cdMap gw ai sendOk now
        msg).decision = some s) :
    (AIPipeline.handleIncomingMessage cfg cdMap gw ai sendOk now
        msg).sendAttempts = 1 ∧
    (sendOk = true →
      (AIPipeline.handleIncomingMessage cfg cdMap gw ai sendOk now
          msg).cooldownMap =
        setCooldown cdMap (fromWhatsAppId msg.fromId) now cfg.cooldown ∧
      (AIPipeline.handleIncomingMessage cfg cdMap gw ai sendOk now
          msg).sendFailureLogged = false) ∧
    (sendOk = false →
      (AIPipeline.handleIncomingMessage cfg cdMap gw ai sendOk now
          msg).cooldownMap = cdMap ∧
      (AIPipeline.handleIncomingMessage cfg cdMap gw ai sendOk now
          msg).sendFailureLogged = true) := by
  unfold AIPipeline.handleIncomingMessage at h ⊢
  rcases hr : AIPipeline.resolveReply cfg cdMap gw ai now msg with ⟨rm, g, a⟩
  rw [hr] at h
  rcases rm with _ | s'
  · simp at h
  · dsimp only at h ⊢
    by_cases hs : s' = ""
    · rw [if_pos hs] at h
      simp at h
    · rw [if_neg hs] at h ⊢
      cases sendOk
      · rw [if_neg (by simp)] at h ⊢
        exact ⟨rfl, fun ht => absurd ht (by simp), fun _ => ⟨rfl, rfl⟩⟩
      · rw [if_pos rfl] at h ⊢
        exact ⟨rfl, fun _ => ⟨rfl, rfl⟩, fun hf => absurd hf (by simp)⟩

/-- C4 witness: the default-message reply with a failing transport —
one attempt, failure logged, cooldown map untouched. -/
theorem claim_C4_witness :
    (AIPipeline.handleIncomingMessage ⟨true, false, false, "D", [], 5⟩ []
        ⟨none, none, none⟩ ⟨false, none⟩ false 1000
        ⟨false, "9@c.us", "hm"⟩).sendAttempts = 1 ∧
    (false = true →
      (AIPipeline.handleIncomingMessage ⟨true, false, false, "D", [], 5⟩ []
          ⟨none, none, none⟩ ⟨false, none⟩ false 1000
          ⟨false, "9@c.us", "hm"⟩).cooldownMap =
        setCooldown [] (fromWhatsAppId "9@c.us") 1000 5 ∧
      (AIPipeline.handleIncomingMessage ⟨true, false, false, "D", [], 5⟩ []
          ⟨none, none, none⟩ ⟨false, none⟩ false 1000
          ⟨false, "9@c.us", "hm"⟩).sendFailureLogged = false) ∧
    (false = false →
      (AIPipeline.handleIncomingMessage ⟨true, false, false, "D", [], 5⟩ []
          ⟨none, none, none⟩ ⟨false, none⟩ false 1000
          ⟨false, "9@c.us", "hm"⟩).cooldownMap = [] ∧
      (AIPipeline.handleIncomingMessage ⟨true, false, false, "D", [], 5⟩ []
          ⟨none, none, none⟩ ⟨false, none⟩ false 1000
          ⟨false, "9@c.us", "hm"⟩).sendFailureLogged = true) :=
  claim_C4_send_failure ⟨true, false, false, "D", [], 5⟩ []
    ⟨none, none, none⟩ ⟨false, none⟩ false 1000 ⟨false, "9@c.us", "hm"⟩
    "D" (by decide)

/-- C10 witness: a number with the country code and the same number
without it are looked up identically. -/
theorem claim_C10_witness :
    SupraApi.lookupBookingPhone "+91 96860 20017" =
      SupraApi.lookupBookingPhone "96860-20017" :=
  claim_C10_phone_normalization.2.2 "+91 96860 20017" "96860-20017"
    (by decide) (by decide) (by decide)

end Bot
